import Mathlib

/-!
Shallow embedding of `homeassistant/components/alexa/capabilities.py`.

An entity is a read-only view: a domain string, a state string, and an
attribute map.  Attribute values are mixed (numbers, strings, booleans,
string lists, numeric pairs), modelled by `AttrVal`.  JSON-like outputs of
the serialization layer are modelled by `JVal`.

Python exceptions that can escape `get_property` are modelled by the error
type `GetErr`: the deliberate `UnsupportedProperty` condition, and the
built-in `ValueError` / `TypeError` / `KeyError` raised by conversions and
lookups.  Branches of the source that catch `ValueError` (the temperature
sensor and the thermostat setpoints) map it back to an absent value, as the
source does; branches with no handler propagate it.

Fixed lookup tables (`API_THERMOSTAT_MODES`, `API_THERMOSTAT_PRESETS`,
`API_TEMP_UNITS`, `PERCENTAGE_FAN_MAP`, `RANGE_FAN_MAP`) and the resource
builders of `resources.py` live outside the provided sources; they are
modelled from the spec and marked as such in their doc comments.
-/

/-- Mixed attribute value of a Home Assistant entity, as stored in the
`attributes` mapping read by the capability layer. -/
inductive AttrVal where
  | num (q : ℚ)
  | str (s : String)
  | bool (b : Bool)
  | strList (l : List String)
  | numPair (a b : ℚ)
deriving DecidableEq

/-- JSON-like value produced by the discovery / state-report serialization. -/
inductive JVal where
  | null
  | num (q : ℚ)
  | str (s : String)
  | bool (b : Bool)
  | arr (l : List JVal)
  | obj (l : List (String × JVal))

/-- Error escaping `get_property`: the typed `UnsupportedProperty` condition,
or a Python built-in exception raised by a conversion or table lookup. -/
inductive GetErr where
  | unsupportedProperty (name : String)
  | valueError
  | typeError
  | keyError
deriving DecidableEq

/-- Entity view consumed by the capability layer: domain, current state
string, and the attribute mapping. -/
structure Entity where
  domain : String
  state : String
  attributes : String → Option AttrVal

/-- Python truthiness of an attribute value (used by `if preset_modes:` and
`bool(...)` in the source). -/
def attrTruthy : AttrVal → Bool
  | .num q => if q = 0 then false else true
  | .str s => if s = "" then false else true
  | .bool b => b
  | .strList l => if l.isEmpty then false else true
  | .numPair _ _ => true

/-- Python truthiness of a JSON-like value (used by the
include-if-non-empty checks of `serialize_discovery`). -/
def jTruthy : JVal → Bool
  | .null => false
  | .num q => if q = 0 then false else true
  | .str s => if s = "" then false else true
  | .bool b => b
  | .arr l => if l.isEmpty then false else true
  | .obj l => if l.isEmpty then false else true

/-- Embeds an attribute value into the JSON-like output domain (attribute
values that the source forwards unchanged into a report). -/
def attrToJVal : AttrVal → JVal
  | .num q => .num q
  | .str s => .str s
  | .bool b => .bool b
  | .strList l => .arr (l.map JVal.str)
  | .numPair a b => .arr [.num a, .num b]

/-- Numeric value of a digit-character list read in base 10. -/
def digitsVal (l : List Char) : Nat :=
  l.foldl (fun a c => a * 10 + (c.toNat - 48)) 0

/-- Strips leading and trailing spaces from a character list (Python's
`str.strip()` on the surrounding whitespace of a numeric literal). -/
def stripSpaces (l : List Char) : List Char :=
  ((l.dropWhile (· = ' ')).reverse.dropWhile (· = ' ')).reverse

/-- Splits off an optional leading sign, returning the sign factor. -/
def splitSign (l : List Char) : Int × List Char :=
  match l with
  | '-' :: r => (-1, r)
  | '+' :: r => (1, r)
  | r => (1, r)

/-- Models Python `float(s)` on a plain decimal string literal: optional
sign, digits with an optional fractional part, surrounding whitespace
stripped.  `none` models the `ValueError` Python raises on any other
string. -/
def parseFloat? (s : String) : Option ℚ :=
  let sb := splitSign (stripSpaces s.data)
  let sign : ℚ := (sb.1 : ℚ)
  let ip := sb.2.takeWhile (· ≠ '.')
  match sb.2.dropWhile (· ≠ '.') with
  | [] =>
    if ip ≠ [] ∧ ip.all (·.isDigit) then some (sign * (digitsVal ip : ℚ))
    else none
  | _ :: fp =>
    if fp.contains '.' then none
    else if (ip ≠ [] ∨ fp ≠ []) ∧ ip.all (·.isDigit) ∧ fp.all (·.isDigit) then
      some (sign * ((digitsVal ip : ℚ) + (digitsVal fp : ℚ) / ((10 : ℚ) ^ fp.length)))
    else none

/-- Models Python `int(s)` on a string: optional sign and digits,
surrounding whitespace stripped.  `none` models the `ValueError` raised on
any other string (including decimal fractions). -/
def parseInt? (s : String) : Option Int :=
  let sb := splitSign (stripSpaces s.data)
  if sb.2 ≠ [] ∧ sb.2.all (·.isDigit) then some (sb.1 * (digitsVal sb.2 : Int))
  else none

/-- Models Python `float(v)` on a mixed attribute value: numbers and
booleans convert, strings parse (`ValueError` on failure), and
non-scalar values raise `TypeError`. -/
def pyFloatVal : AttrVal → Except GetErr ℚ
  | .num q => .ok q
  | .bool b => .ok (if b then 1 else 0)
  | .str s =>
    match parseFloat? s with
    | some q => .ok q
    | none => .error .valueError
  | .strList _ => .error .typeError
  | .numPair _ _ => .error .typeError

/-- Models Python 3 `round(q)`: nearest integer, ties to even. -/
def pyRound (q : ℚ) : Int :=
  let f : Int := Int.floor q
  let r : ℚ := q - (f : ℚ)
  if r < 1 / 2 then f
  else if 1 / 2 < r then f + 1
  else if f % 2 = 0 then f else f + 1

/-- Modelled from the spec: the fixed HVAC-state → Alexa thermostat mode
table `API_THERMOSTAT_MODES` of `alexa/const.py`, which is not among the
provided sources.  Per the spec, `heat` and `cool` map to their Alexa
equivalents and `off` has no entry. -/
def apiThermostatModes (s : String) : Option String :=
  if s = "heat" then some "HEAT"
  else if s = "cool" then some "COOL"
  else none

/-- Modelled from the spec: the fixed preset-name → Alexa thermostat mode
table `API_THERMOSTAT_PRESETS` of `alexa/const.py`, which is not among the
provided sources.  The eco preset maps to the Alexa `ECO` mode. -/
def apiThermostatPresets (s : String) : Option String :=
  if s = "eco" then some "ECO" else none

/-- Modelled from the spec: the fixed unit-name → API scale table
`API_TEMP_UNITS` of `alexa/const.py`, which is not among the provided
sources.  A key with no entry (including a missing unit) models the
`KeyError` of the source's direct indexing. -/
def apiTempUnits : Option String → Option String
  | some u =>
    if u = "°C" then some "CELSIUS"
    else if u = "°F" then some "FAHRENHEIT"
    else none
  | none => none

/-- Modelled from the spec: the fixed fan speed-name → percentage table
`PERCENTAGE_FAN_MAP` of `alexa/const.py` (fan-speed percentage buckets),
which is not among the provided sources. -/
def percentageFanMap (s : String) : Option ℚ :=
  if s = "off" then some 0
  else if s = "low" then some 33
  else if s = "medium" then some 66
  else if s = "high" then some 100
  else none

/-- Modelled from the spec: the fixed fan speed-name → range value table
`RANGE_FAN_MAP` of `alexa/const.py` (range presets 1..3 visible in the
fan-speed resource of the source), which is not among the provided
sources. -/
def rangeFanMap (s : String) : Option ℚ :=
  if s = "off" then some 0
  else if s = "low" then some 1
  else if s = "medium" then some 2
  else if s = "high" then some 3
  else none

/-- Modelled from the spec: `climate.SUPPORT_TARGET_TEMPERATURE` feature
bit (climate component constants are not among the provided sources). -/
def supportTargetTemperature : Nat := 1

/-- Modelled from the spec: `climate.SUPPORT_TARGET_TEMPERATURE_RANGE`
feature bit (climate component constants are not among the provided
sources). -/
def supportTargetTemperatureRange : Nat := 2

/-- Feature-support bitmask of an entity: `attributes.get(ATTR_SUPPORTED_FEATURES, 0)`. -/
def entityFeatures (e : Entity) : Nat :=
  match e.attributes "supported_features" with
  | some (.num q) => if q.den = 1 ∧ 0 ≤ q.num then q.num.toNat else 0
  | _ => 0

/-- The capability variants of `capabilities.py`, each holding the entity it
wraps plus the per-variant constructor parameters of the source
(`instance` and the captured `non_controllable` flag for the Mode / Range
/ Toggle controllers, the captured flag for scenes, and the unit
configuration of the `hass` handle where the source reads it). -/
inductive Capability where
  | alexa (e : Entity)
  | endpointHealth (e : Entity)
  | power (e : Entity)
  | lock (e : Entity)
  | scene (e : Entity) (deactivation : Bool)
  | brightness (e : Entity)
  | color (e : Entity)
  | colorTemperature (e : Entity)
  | percentage (e : Entity)
  | speaker (e : Entity)
  | stepSpeaker (e : Entity)
  | playback (e : Entity)
  | inputCtrl (e : Entity)
  | temperatureSensor (hassUnit : String) (e : Entity)
  | contactSensor (e : Entity)
  | motionSensor (e : Entity)
  | thermostat (hassUnit : String) (e : Entity)
  | powerLevel (e : Entity)
  | securityPanel (e : Entity)
  | mode (e : Entity) (inst : String) (nonControllable : Bool)
  | range (e : Entity) (inst : String) (nonControllable : Bool)
  | toggle (e : Entity) (inst : String) (nonControllable : Bool)
  | channel (e : Entity)
  | doorbell (e : Entity)
  | playbackStateReporter (e : Entity)
  | seek (e : Entity)
  | eventDetectionSensor (e : Entity)

/-- `name()`: the fixed Alexa interface identifier of each variant. -/
def capName : Capability → String
  | .alexa _ => "Alexa"
  | .endpointHealth _ => "Alexa.EndpointHealth"
  | .power _ => "Alexa.PowerController"
  | .lock _ => "Alexa.LockController"
  | .scene _ _ => "Alexa.SceneController"
  | .brightness _ => "Alexa.BrightnessController"
  | .color _ => "Alexa.ColorController"
  | .colorTemperature _ => "Alexa.ColorTemperatureController"
  | .percentage _ => "Alexa.PercentageController"
  | .speaker _ => "Alexa.Speaker"
  | .stepSpeaker _ => "Alexa.StepSpeaker"
  | .playback _ => "Alexa.PlaybackController"
  | .inputCtrl _ => "Alexa.InputController"
  | .temperatureSensor _ _ => "Alexa.TemperatureSensor"
  | .contactSensor _ => "Alexa.ContactSensor"
  | .motionSensor _ => "Alexa.MotionSensor"
  | .thermostat _ _ => "Alexa.ThermostatController"
  | .powerLevel _ => "Alexa.PowerLevelController"
  | .securityPanel _ => "Alexa.SecurityPanelController"
  | .mode _ _ _ => "Alexa.ModeController"
  | .range _ _ _ => "Alexa.RangeController"
  | .toggle _ _ _ => "Alexa.ToggleController"
  | .channel _ => "Alexa.ChannelController"
  | .doorbell _ => "Alexa.DoorbellEventSource"
  | .playbackStateReporter _ => "Alexa.PlaybackStateReporter"
  | .seek _ => "Alexa.SeekController"
  | .eventDetectionSensor _ => "Alexa.EventDetectionSensor"

/-- The `instance` field: set only by the Mode / Range / Toggle
controllers' constructors, `None` everywhere else. -/
def capInstance : Capability → Option String
  | .mode _ i _ => some i
  | .range _ i _ => some i
  | .toggle _ i _ => some i
  | _ => none

/-- `properties_supported()`, reduced to the declared property names (the
source wraps each name in a `{"name": n}` dict; the discovery serializer
below reconstructs those).  Only the thermostat computes the list from the
entity's feature bitmask; everything else is constant. -/
def supportedNames : Capability → List String
  | .endpointHealth _ => ["connectivity"]
  | .power _ => ["powerState"]
  | .lock _ => ["lockState"]
  | .brightness _ => ["brightness"]
  | .color _ => ["color"]
  | .colorTemperature _ => ["colorTemperatureInKelvin"]
  | .percentage _ => ["percentage"]
  | .temperatureSensor _ _ => ["temperature"]
  | .contactSensor _ => ["detectionState"]
  | .motionSensor _ => ["detectionState"]
  | .thermostat _ e =>
    ["thermostatMode"]
      ++ (if entityFeatures e &&& supportTargetTemperature ≠ 0 then ["targetSetpoint"] else [])
      ++ (if entityFeatures e &&& supportTargetTemperatureRange ≠ 0 then ["lowerSetpoint", "upperSetpoint"] else [])
  | .powerLevel _ => ["powerLevel"]
  | .securityPanel _ => ["armState"]
  | .mode _ _ _ => ["mode"]
  | .range _ _ _ => ["rangeValue"]
  | .toggle _ _ _ => ["toggleState"]
  | .playbackStateReporter _ => ["playbackState"]
  | .eventDetectionSensor _ => ["humanPresenceDetectionState"]
  | _ => []

/-- `preset in API_THERMOSTAT_PRESETS` followed by the table lookup, on the
`preset_mode` attribute (a non-string attribute value is never a key of
the string-keyed table). -/
def presetOf (e : Entity) : Option String :=
  match e.attributes "preset_mode" with
  | some (.str p) => apiThermostatPresets p
  | _ => none

/-- `get_property(name)` of every capability variant, translated branch by
branch from the source.  `.ok none` is Python `None` (an absent value),
`.error` a raised exception. -/
def getProperty : Capability → String → Except GetErr (Option JVal)
  | .endpointHealth e, n =>
    if n ≠ "connectivity" then .error (.unsupportedProperty n)
    else if e.state = "unavailable" then .ok (some (.obj [("value", .str "UNREACHABLE")]))
    else .ok (some (.obj [("value", .str "OK")]))
  | .power e, n =>
    if n ≠ "powerState" then .error (.unsupportedProperty n)
    else if e.domain = "climate" then
      .ok (some (.str (if e.state ≠ "off" then "ON" else "OFF")))
    else
      .ok (some (.str (if e.state ≠ "off" then "ON" else "OFF")))
  | .lock e, n =>
    if n ≠ "lockState" then .error (.unsupportedProperty n)
    else if e.state = "locked" then .ok (some (.str "LOCKED"))
    else if e.state = "unlocked" then .ok (some (.str "UNLOCKED"))
    else .ok (some (.str "JAMMED"))
  | .brightness e, n =>
    if n ≠ "brightness" then .error (.unsupportedProperty n)
    else
      match e.attributes "brightness" with
      | some (.num q) => .ok (some (.num ((pyRound (q / 255 * 100) : ℤ) : ℚ)))
      | some _ => .error .typeError
      | none => .ok (some (.num 0))
  | .color e, n =>
    if n ≠ "color" then .error (.unsupportedProperty n)
    else
      match (match e.attributes "hs_color" with
             | none => Except.ok ((0 : ℚ), (0 : ℚ))
             | some (.numPair a b) => Except.ok (a, b)
             | some _ => Except.error GetErr.typeError) with
      | .error er => .error er
      | .ok hs =>
        match (match e.attributes "brightness" with
               | none => Except.ok (0 : ℚ)
               | some (.num q) => Except.ok q
               | some _ => Except.error GetErr.typeError) with
        | .error er => .error er
        | .ok bq =>
          .ok (some (.obj [("hue", .num hs.1), ("saturation", .num (hs.2 / 100)),
                           ("brightness", .num (bq / 255))]))
  | .colorTemperature e, n =>
    if n ≠ "colorTemperatureInKelvin" then .error (.unsupportedProperty n)
    else
      match e.attributes "color_temp" with
      | some (.num q) => .ok (some (.num (1000000 / q)))
      | some _ => .error .typeError
      | none => .ok none
  | .percentage e, n =>
    if n ≠ "percentage" then .error (.unsupportedProperty n)
    else if e.domain = "fan" then
      .ok (some (.num ((match e.attributes "speed" with
                        | some (.str s) => percentageFanMap s
                        | _ => none).getD 0)))
    else if e.domain = "cover" then
      .ok (some (attrToJVal ((e.attributes "current_position").getD (.num 0))))
    else .ok (some (.num 0))
  | .temperatureSensor hassUnit e, n =>
    if n ≠ "temperature" then .error (.unsupportedProperty n)
    else
      let unit : Option String :=
        if e.domain = "climate" then some hassUnit
        else match e.attributes "unit_of_measurement" with
             | some (.str u) => some u
             | _ => none
      let temp : Option AttrVal :=
        if e.domain = "climate" then e.attributes "current_temperature"
        else some (.str e.state)
      match temp with
      | none => .ok none
      | some t =>
        if t = .str "unavailable" ∨ t = .str "unknown" then .ok none
        else
          match pyFloatVal t with
          | .ok q =>
            match apiTempUnits unit with
            | some sc => .ok (some (.obj [("value", .num q), ("scale", .str sc)]))
            | none => .error .keyError
          | .error .valueError => .ok none
          | .error er => .error er
  | .contactSensor e, n =>
    if n ≠ "detectionState" then .error (.unsupportedProperty n)
    else if e.state = "on" then .ok (some (.str "DETECTED"))
    else .ok (some (.str "NOT_DETECTED"))
  | .motionSensor e, n =>
    if n ≠ "detectionState" then .error (.unsupportedProperty n)
    else if e.state = "on" then .ok (some (.str "DETECTED"))
    else .ok (some (.str "NOT_DETECTED"))
  | .thermostat hassUnit e, n =>
    if e.state = "unavailable" then .ok none
    else if n = "thermostatMode" then
      match presetOf e with
      | some m => .ok (some (.str m))
      | none =>
        match apiThermostatModes e.state with
        | some m => .ok (some (.str m))
        | none => .error (.unsupportedProperty n)
    else
      match (if n = "targetSetpoint" then Except.ok (e.attributes "temperature")
             else if n = "lowerSetpoint" then Except.ok (e.attributes "target_temp_low")
             else if n = "upperSetpoint" then Except.ok (e.attributes "target_temp_high")
             else Except.error (GetErr.unsupportedProperty n)) with
      | .error er => .error er
      | .ok none => .ok none
      | .ok (some t) =>
        match pyFloatVal t with
        | .ok q =>
          match apiTempUnits (some hassUnit) with
          | some sc => .ok (some (.obj [("value", .num q), ("scale", .str sc)]))
          | none => .error .keyError
        | .error .valueError => .ok none
        | .error er => .error er
  | .powerLevel e, n =>
    if n ≠ "powerLevel" then .error (.unsupportedProperty n)
    else if e.domain = "fan" then
      .ok ((match e.attributes "speed" with
            | some (.str s) => percentageFanMap s
            | _ => none).map JVal.num)
    else .ok none
  | .securityPanel e, n =>
    if n ≠ "armState" then .error (.unsupportedProperty n)
    else if e.state = "armed_home" then .ok (some (.str "ARMED_STAY"))
    else if e.state = "armed_away" then .ok (some (.str "ARMED_AWAY"))
    else if e.state = "armed_night" then .ok (some (.str "ARMED_NIGHT"))
    else if e.state = "armed_custom_bypass" then .ok (some (.str "ARMED_STAY"))
    else .ok (some (.str "DISARMED"))
  | .mode e inst _, n =>
    if n ≠ "mode" then .error (.unsupportedProperty n)
    else if inst = "fan.direction" then
      match e.attributes "direction" with
      | some (.str m) =>
        if m = "forward" ∨ m = "reverse" ∨ m = "unknown" then
          .ok (some (.str ("direction." ++ m)))
        else .ok none
      | _ => .ok none
    else if inst = "cover.position" then
      if e.state = "open" ∨ e.state = "opening" ∨ e.state = "closed"
          ∨ e.state = "closing" ∨ e.state = "unknown" then
        .ok (some (.str ("position." ++ e.state)))
      else .ok none
    else .ok none
  | .range e inst _, n =>
    if n ≠ "rangeValue" then .error (.unsupportedProperty n)
    else if inst = "fan.speed" then
      .ok (some (.num ((match e.attributes "speed" with
                        | some (.str s) => rangeFanMap s
                        | _ => none).getD 0)))
    else if inst = "cover.position" then
      .ok ((e.attributes "current_position").map attrToJVal)
    else if inst = "cover.tilt_position" then
      .ok ((e.attributes "current_tilt_position").map attrToJVal)
    else if inst = "input_number.value" then
      match parseFloat? e.state with
      | some q => .ok (some (.num q))
      | none => .error .valueError
    else .ok none
  | .toggle e inst _, n =>
    if n ≠ "toggleState" then .error (.unsupportedProperty n)
    else if inst = "fan.oscillating" then
      .ok (some (.str (if (match e.attributes "oscillating" with
                           | some v => attrTruthy v
                           | none => false) then "ON" else "OFF")))
    else .ok none
  | .playbackStateReporter e, n =>
    if n ≠ "playbackState" then .error (.unsupportedProperty n)
    else if e.state = "playing" then .ok (some (.obj [("state", .str "PLAYING")]))
    else if e.state = "paused" then .ok (some (.obj [("state", .str "PAUSED")]))
    else .ok (some (.obj [("state", .str "STOPPED")]))
  | .eventDetectionSensor e, n =>
    if n ≠ "humanPresenceDetectionState" then .error (.unsupportedProperty n)
    else if e.state = "unavailable" ∨ e.state = "unknown" then .ok none
    else if e.domain = "image_processing" then
      match parseInt? e.state with
      | some k =>
        .ok (some (.obj [("value", .str (if k ≠ 0 then "DETECTED" else "NOT_DETECTED"))]))
      | none => .error .valueError
    else
      .ok (some (.obj [("value", .str (if e.state = "on" then "DETECTED" else "NOT_DETECTED"))]))
  | _, n => .error (.unsupportedProperty n)

/-- Boolean success test on a `get_property` outcome (Python: the call
returned instead of raising). -/
def exOk : Except GetErr (Option JVal) → Bool
  | .ok _ => true
  | .error _ => false

/-- One property-report fragment as built by `serialize_properties`:
`{name, namespace, value, timeOfSample, uncertaintyInMilliseconds, instance?}`. -/
def mkFragment (capNm : String) (inst : Option String) (now n : String) (v : JVal) : JVal :=
  .obj ([("name", .str n), ("namespace", .str capNm), ("value", v),
         ("timeOfSample", .str now), ("uncertaintyInMilliseconds", .num 0)]
    ++ (match inst with | some i => [("instance", .str i)] | none => []))

/-- Walks a list of declared property names as the `serialize_properties`
generator does: `get_property` per name, skip `None` values, propagate an
exception, emit one fragment per present value. -/
def serializePropsAux (cap : Capability) (now : String) : List String → Except GetErr (List JVal)
  | [] => .ok []
  | n :: rest =>
    match getProperty cap n with
    | .error er => .error er
    | .ok none => serializePropsAux cap now rest
    | .ok (some v) =>
      match serializePropsAux cap now rest with
      | .error er => .error er
      | .ok tail => .ok (mkFragment (capName cap) (capInstance cap) now n v :: tail)

/-- `serialize_properties()`, with the wall-clock timestamp passed in as
`now` (the source reads `dt_util.utcnow()`). -/
def serializeProperties (cap : Capability) (now : String) : Except GetErr (List JVal) :=
  serializePropsAux cap now (supportedNames cap)

/-- The hook outputs `serialize_discovery` consumes: one field per method
of the capability base contract.  The five object-valued hooks carry
`Except Unit` because their overrides can raise (direct attribute indexing
and `float(...)` conversions in the Range controller's input-number
resource, missing `hvac_modes` in the thermostat configuration). -/
structure Hooks where
  name : String
  inst : Option String
  propertiesSupported : List String
  propertiesProactivelyReported : Bool
  propertiesRetrievable : Bool
  propertiesNonControllable : Option Bool
  capabilityProactivelyReported : Option Bool
  supportsDeactivation : Option Bool
  capabilityResources : Except Unit JVal
  configuration : Except Unit JVal
  semantics : Except Unit JVal
  supportedOperations : Except Unit JVal
  inputs : Except Unit JVal

/-- Positional constructor for `Hooks` (field order as declared). -/
def mkHooks (nm : String) (io : Option String) (ps : List String) (ppr pr : Bool)
    (pnc cpr sd : Option Bool) (cres cfg sem sops inps : Except Unit JVal) : Hooks :=
  ⟨nm, io, ps, ppr, pr, pnc, cpr, sd, cres, cfg, sem, sops, inps⟩

/-- Error escaping `serialize_discovery`: the `KeyError` of inserting
`nonControllable` into a missing `properties` object, or any exception
raised by an optional hook (collapsed to one case). -/
inductive DiscErr where
  | keyError
  | hookError
deriving DecidableEq

/-- Inserts a key into a JSON object (used for the nested
`result["properties"]["nonControllable"] = ...` assignment). -/
def jInsert : JVal → String → JVal → JVal
  | .obj l, k, v => .obj (l ++ [(k, v)])
  | j, _, _ => j

/-- `result["properties"]["nonControllable"] = b`: rewrites the
`properties` entry, or models Python's `KeyError` when the key is
absent. -/
def setNonControllable (r : List (String × JVal)) (b : Bool) : Except DiscErr (List (String × JVal)) :=
  if r.any (fun kv => kv.1 = "properties") then
    .ok (r.map (fun kv =>
      if kv.1 = "properties" then (kv.1, jInsert kv.2 "nonControllable" (.bool b)) else kv))
  else .error .keyError

/-- The nested `properties` object of a discovery document. -/
def propsObj (h : Hooks) : JVal :=
  .obj [("supported", .arr (h.propertiesSupported.map (fun n => .obj [("name", .str n)]))),
        ("proactivelyReported", .bool h.propertiesProactivelyReported),
        ("retrievable", .bool h.propertiesRetrievable)]

/-- Appends `(k, v)` to the document when `v` is truthy, the source's
include-if-non-empty rule. -/
def appIf (r : List (String × JVal)) (k : String) (v : JVal) : List (String × JVal) :=
  if jTruthy v then r ++ [(k, v)] else r

/-- `serialize_discovery()`, translated key by key in the source's
insertion order.  The document is an association list in insertion
order. -/
def serializeDiscovery (h : Hooks) : Except DiscErr (List (String × JVal)) :=
  let r0 := [("type", JVal.str "AlexaInterface"), ("interface", JVal.str h.name),
             ("version", JVal.str "3")]
      ++ (match h.inst with | some i => [("instance", JVal.str i)] | none => [])
  let r1 := if h.propertiesSupported.isEmpty then r0 else r0 ++ [("properties", propsObj h)]
  let r2 := match h.capabilityProactivelyReported with
    | some b => r1 ++ [("proactivelyReported", JVal.bool b)]
    | none => r1
  match (match h.propertiesNonControllable with
         | some b => setNonControllable r2 b
         | none => Except.ok r2) with
  | .error er => .error er
  | .ok r3 =>
    let r4 := match h.supportsDeactivation with
      | some b => r3 ++ [("supportsDeactivation", JVal.bool b)]
      | none => r3
    match h.capabilityResources, h.configuration, h.semantics, h.supportedOperations, h.inputs with
    | .ok cr, .ok cf, .ok sm, .ok so, .ok inp =>
      .ok (appIf (appIf (appIf (appIf (appIf r4 "capabilityResources" cr)
            "configuration" cf) "semantics" sm) "supportedOperations" so) "inputs" inp)
    | _, _, _, _, _ => .error .hookError

/-- Modelled from the spec: a non-empty stand-in for one serialized
resource / semantics object of `resources.py`, which is not among the
provided sources.  Only its truthiness (non-empty object) matters to the
serialization layer. -/
def specResourceStandIn (tag : String) : JVal :=
  .obj [("spec", .str tag)]

/-- Models `for x in v` over an attribute value: the elements a Python
`for` loop would see, with non-string elements yielded as `none` (they
never hit an entry of the string-keyed tables); `.error` models the
`TypeError` of iterating `None`, a number, or a boolean. -/
def pyIterStrs : Option AttrVal → Except Unit (List (Option String))
  | none => .error ()
  | some (.strList l) => .ok (l.map some)
  | some (.str s) => .ok (s.toList.map (fun c => some (String.singleton c)))
  | some (.numPair _ _) => .ok [none, none]
  | some (.num _) => .error ()
  | some (.bool _) => .error ()

/-- `AlexaThermostatController.configuration()`: maps the entity's HVAC
modes and presets through the two fixed tables (falsy lookups skipped),
always advertising `supportsScheduling: False` first and a
`supportedModes` list only when non-empty. -/
def thermostatConfiguration (e : Entity) : Except Unit JVal :=
  let presets : Except Unit (List String) :=
    match e.attributes "preset_modes" with
    | none => .ok []
    | some v =>
      if attrTruthy v then
        (pyIterStrs (some v)).map (fun l => l.filterMap (fun o => o.bind apiThermostatPresets))
      else .ok []
  match pyIterStrs (e.attributes "hvac_modes"), presets with
  | .ok hv, .ok ps =>
    let supportedModes := hv.filterMap (fun o => o.bind apiThermostatModes) ++ ps
    .ok (.obj (("supportsScheduling", JVal.bool false)
      :: (if supportedModes.isEmpty then []
          else [("supportedModes", JVal.arr (supportedModes.map JVal.str))])))
  | _, _ => .error ()

/-- `AlexaSecurityPanelController.configuration()`: a four-digit-PIN
authorization descriptor only for numeric code formats. -/
def securityPanelConfiguration (e : Entity) : Except Unit JVal :=
  if e.attributes "code_format" = some (.str "number") then
    .ok (.obj [("supportedAuthorizationTypes", .arr [.obj [("type", .str "FOUR_DIGIT_PIN")]])])
  else .ok .null

/-- `AlexaEventDetectionSensor.configuration()`: fixed detection
metadata. -/
def eventDetectionConfiguration : Except Unit JVal :=
  .ok (.obj [("detectionMethods", .arr [.str "AUDIO", .str "VIDEO"]),
             ("detectionModes", .obj [("humanPresence",
               .obj [("featureAvailability", .str "ENABLED"),
                     ("supportsNotDetected", .bool true)])])])

/-- `AlexaModeController.capability_resources()`: a resource for the two
known instances, `None` otherwise (resource content modelled from the
spec, see `specResourceStandIn`). -/
def modeCapabilityResources (inst : String) : Except Unit JVal :=
  if inst = "fan.direction" then .ok (specResourceStandIn "modeFanDirection")
  else if inst = "cover.position" then .ok (specResourceStandIn "modeCoverPosition")
  else .ok .null

/-- `AlexaModeController.configuration()`: present when
`capability_resources` (called first by `serialize_discovery`) matched a
known instance and stored a resource. -/
def modeConfiguration (inst : String) : Except Unit JVal :=
  if inst = "fan.direction" ∨ inst = "cover.position" then
    .ok (specResourceStandIn "modeConfiguration")
  else .ok .null

/-- `AlexaModeController.semantics()`: only the cover-position instance
has semantic mappings. -/
def modeSemantics (inst : String) : Except Unit JVal :=
  if inst = "cover.position" then .ok (specResourceStandIn "modeSemantics")
  else .ok .null

/-- `AlexaRangeController.capability_resources()`: the input-number branch
indexes `min` / `max` directly (`KeyError` when absent) and converts
`min` / `max` / `step` with `float(...)` (uncaught conversion errors
propagate); the other branches build fixed resources. -/
def rangeCapabilityResources (e : Entity) (inst : String) : Except Unit JVal :=
  if inst = "fan.speed" then .ok (specResourceStandIn "rangeFanSpeed")
  else if inst = "cover.position" then .ok (specResourceStandIn "rangeCoverPosition")
  else if inst = "cover.tilt_position" then .ok (specResourceStandIn "rangeCoverTilt")
  else if inst = "input_number.value" then
    match e.attributes "min", e.attributes "max" with
    | some mn, some mx =>
      match pyFloatVal mn, pyFloatVal mx with
      | .ok _, .ok _ =>
        match e.attributes "step" with
        | none => .ok (specResourceStandIn "rangeInputNumber")
        | some st =>
          match pyFloatVal st with
          | .ok _ => .ok (specResourceStandIn "rangeInputNumber")
          | .error _ => .error ()
      | _, _ => .error ()
    | _, _ => .error ()
  else .ok .null

/-- `AlexaRangeController.configuration()`: present when
`capability_resources` matched a known instance. -/
def rangeConfiguration (inst : String) : Except Unit JVal :=
  if inst = "fan.speed" ∨ inst = "cover.position" ∨ inst = "cover.tilt_position"
      ∨ inst = "input_number.value" then
    .ok (specResourceStandIn "rangeConfiguration")
  else .ok .null

/-- `AlexaRangeController.semantics()`: the two cover instances carry
semantic action mappings. -/
def rangeSemantics (inst : String) : Except Unit JVal :=
  if inst = "cover.position" ∨ inst = "cover.tilt_position" then
    .ok (specResourceStandIn "rangeSemantics")
  else .ok .null

/-- `AlexaToggleController.capability_resources()`: only the
fan-oscillating instance has a resource. -/
def toggleCapabilityResources (inst : String) : Except Unit JVal :=
  if inst = "fan.oscillating" then .ok (specResourceStandIn "toggleFanOscillating")
  else .ok .null

/-- Modelled from the spec: the media-player feature bits paired with the
operation names of `AlexaPlaybackController.supported_operations()`, in
the source's dict insertion order (the bit values live in the media-player
component's constants, not among the provided sources). -/
def playbackOperations : List (Nat × String) :=
  [(32, "Next"), (1, "Pause"), (16384, "Play"), (16, "Previous"), (4096, "Stop")]

/-- `AlexaPlaybackController.supported_operations()`: filters the fixed
candidate list against the entity's feature bitmask. -/
def playbackSupportedOperations (e : Entity) : Except Unit JVal :=
  .ok (.arr ((playbackOperations.filter
    (fun p => decide (p.1 &&& entityFeatures e ≠ 0))).map (fun p => .str p.2)))

/-- Normalizes a media-player source name: lowercased, separators
stripped. -/
def normalizeSource (s : String) : String :=
  ((s.toLower.replace "-" "").replace "_" "").replace " " ""

/-- Modelled from the spec: a fragment of `Inputs.VALID_SOURCE_NAME_MAP`
of `alexa/const.py`, which is not among the provided sources. -/
def validSourceNameMap (s : String) : Option String :=
  if s = "aux" then some "AUX"
  else if s = "hdmi1" then some "HDMI 1"
  else if s = "tv" then some "TV"
  else none

/-- `AlexaInputController.inputs()`: normalizes each source-list entry and
keeps only those found in the fixed valid-name table. -/
def inputControllerInputs (e : Entity) : Except Unit JVal :=
  let sources := match e.attributes "source_list" with
    | some (.strList l) => l
    | _ => []
  .ok (.arr (sources.filterMap (fun s =>
    (validSourceNameMap (normalizeSource s)).map (fun nm => .obj [("name", .str nm)]))))

/-- Default hook values of the capability base class. -/
def emptyHook : Except Unit JVal := .ok (.arr [])

/-- The hook outputs of each capability variant, read off the overrides in
the source (flags per class, the captured `non_controllable` /
`supports_deactivation` closures, and the per-variant resource hooks). -/
def hooks : Capability → Hooks
  | .alexa e => mkHooks (capName (.alexa e)) none [] false false none none none
      emptyHook emptyHook emptyHook emptyHook emptyHook
  | .endpointHealth e => mkHooks (capName (.endpointHealth e)) none (supportedNames (.endpointHealth e))
      true true none none none emptyHook emptyHook emptyHook emptyHook emptyHook
  | .power e => mkHooks (capName (.power e)) none (supportedNames (.power e))
      true true none none none emptyHook emptyHook emptyHook emptyHook emptyHook
  | .lock e => mkHooks (capName (.lock e)) none (supportedNames (.lock e))
      true true none none none emptyHook emptyHook emptyHook emptyHook emptyHook
  | .scene e d => mkHooks (capName (.scene e d)) none [] false false none none (some d)
      emptyHook emptyHook emptyHook emptyHook emptyHook
  | .brightness e => mkHooks (capName (.brightness e)) none (supportedNames (.brightness e))
      true true none none none emptyHook emptyHook emptyHook emptyHook emptyHook
  | .color e => mkHooks (capName (.color e)) none (supportedNames (.color e))
      false true none none none emptyHook emptyHook emptyHook emptyHook emptyHook
  | .colorTemperature e => mkHooks (capName (.colorTemperature e)) none
      (supportedNames (.colorTemperature e)) false true none none none
      emptyHook emptyHook emptyHook emptyHook emptyHook
  | .percentage e => mkHooks (capName (.percentage e)) none (supportedNames (.percentage e))
      false true none none none emptyHook emptyHook emptyHook emptyHook emptyHook
  | .speaker e => mkHooks (capName (.speaker e)) none [] false false none none none
      emptyHook emptyHook emptyHook emptyHook emptyHook
  | .stepSpeaker e => mkHooks (capName (.stepSpeaker e)) none [] false false none none none
      emptyHook emptyHook emptyHook emptyHook emptyHook
  | .playback e => mkHooks (capName (.playback e)) none [] false false none none none
      emptyHook emptyHook emptyHook (playbackSupportedOperations e) emptyHook
  | .inputCtrl e => mkHooks (capName (.inputCtrl e)) none [] false false none none none
      emptyHook emptyHook emptyHook emptyHook (inputControllerInputs e)
  | .temperatureSensor u e => mkHooks (capName (.temperatureSensor u e)) none
      (supportedNames (.temperatureSensor u e)) true true none none none
      emptyHook emptyHook emptyHook emptyHook emptyHook
  | .contactSensor e => mkHooks (capName (.contactSensor e)) none
      (supportedNames (.contactSensor e)) true true none none none
      emptyHook emptyHook emptyHook emptyHook emptyHook
  | .motionSensor e => mkHooks (capName (.motionSensor e)) none
      (supportedNames (.motionSensor e)) true true none none none
      emptyHook emptyHook emptyHook emptyHook emptyHook
  | .thermostat u e => mkHooks (capName (.thermostat u e)) none
      (supportedNames (.thermostat u e)) true true none none none
      emptyHook (thermostatConfiguration e) emptyHook emptyHook emptyHook
  | .powerLevel e => mkHooks (capName (.powerLevel e)) none (supportedNames (.powerLevel e))
      true true none none none emptyHook emptyHook emptyHook emptyHook emptyHook
  | .securityPanel e => mkHooks (capName (.securityPanel e)) none
      (supportedNames (.securityPanel e)) true true none none none
      emptyHook (securityPanelConfiguration e) emptyHook emptyHook emptyHook
  | .mode e i nc => mkHooks (capName (.mode e i nc)) (some i) (supportedNames (.mode e i nc))
      true true (some nc) none none
      (modeCapabilityResources i) (modeConfiguration i) (modeSemantics i) emptyHook emptyHook
  | .range e i nc => mkHooks (capName (.range e i nc)) (some i) (supportedNames (.range e i nc))
      true true (some nc) none none
      (rangeCapabilityResources e i) (rangeConfiguration i) (rangeSemantics i) emptyHook emptyHook
  | .toggle e i nc => mkHooks (capName (.toggle e i nc)) (some i) (supportedNames (.toggle e i nc))
      true true (some nc) none none
      (toggleCapabilityResources i) emptyHook emptyHook emptyHook emptyHook
  | .channel e => mkHooks (capName (.channel e)) none [] false false none none none
      emptyHook emptyHook emptyHook emptyHook emptyHook
  | .doorbell e => mkHooks (capName (.doorbell e)) none [] false false none (some true) none
      emptyHook emptyHook emptyHook emptyHook emptyHook
  | .playbackStateReporter e => mkHooks (capName (.playbackStateReporter e)) none
      (supportedNames (.playbackStateReporter e)) true true none none none
      emptyHook emptyHook emptyHook emptyHook emptyHook
  | .seek e => mkHooks (capName (.seek e)) none [] false false none none none
      emptyHook emptyHook emptyHook emptyHook emptyHook
  | .eventDetectionSensor e => mkHooks (capName (.eventDetectionSensor e)) none
      (supportedNames (.eventDetectionSensor e)) true false none none none
      emptyHook eventDetectionConfiguration emptyHook emptyHook emptyHook

/-- Boolean test that an optional hook returned its empty / absent
default (`None`, an empty list, or an empty dict), the precondition of
the minimal-discovery claim. -/
def hookEmptyB : Except Unit JVal → Bool
  | .ok v => !jTruthy v
  | .error _ => false

/-- Boolean test for the thermostat variant (the one class whose
`get_property` checks the entity state before the property name). -/
def isThermostat : Capability → Bool
  | .thermostat _ _ => true
  | _ => false

/-- C7: the brightness capability scales the 0-255 `brightness` attribute
to 0-100 rounded to nearest: 255 reports 100, 128 reports 50, and a
missing attribute reports 0. -/
theorem C7_brightness :
    getProperty (Capability.brightness ⟨"light", "on",
        fun k => if k = "brightness" then some (.num 255) else none⟩) "brightness"
      = .ok (some (.num 100))
    ∧ getProperty (Capability.brightness ⟨"light", "on",
        fun k => if k = "brightness" then some (.num 128) else none⟩) "brightness"
      = .ok (some (.num 50))
    ∧ getProperty (Capability.brightness ⟨"light", "on", fun _ => none⟩) "brightness"
      = .ok (some (.num 0)) := by
  refine ⟨?_, ?_, ?_⟩ <;> norm_num [getProperty, pyRound]

/-- C8: the security-panel capability maps `armed_home` and
`armed_custom_bypass` to `ARMED_STAY`, `armed_away` to `ARMED_AWAY`,
`armed_night` to `ARMED_NIGHT`, and every other state to `DISARMED`. -/
theorem C8_security_panel (e : Entity) :
    (e.state = "armed_home" →
      getProperty (.securityPanel e) "armState" = .ok (some (.str "ARMED_STAY")))
    ∧ (e.state = "armed_custom_bypass" →
      getProperty (.securityPanel e) "armState" = .ok (some (.str "ARMED_STAY")))
    ∧ (e.state = "armed_away" →
      getProperty (.securityPanel e) "armState" = .ok (some (.str "ARMED_AWAY")))
    ∧ (e.state = "armed_night" →
      getProperty (.securityPanel e) "armState" = .ok (some (.str "ARMED_NIGHT")))
    ∧ (e.state ∉ ["armed_home", "armed_away", "armed_night", "armed_custom_bypass"] →
      getProperty (.securityPanel e) "armState" = .ok (some (.str "DISARMED"))) := by
  refine ⟨?_, ?_, ?_, ?_, ?_⟩ <;> intro h
  · simp [getProperty, h]
  · simp [getProperty, h]
  · simp [getProperty, h]
  · simp [getProperty, h]
  · simp only [List.mem_cons, List.mem_singleton, not_or] at h
    obtain ⟨h1, h2, h3, h4⟩ := h
    simp [getProperty, h1, h2, h3, h4]

/-- C8 witness: the alias state `armed_custom_bypass` reports
`ARMED_STAY`. -/
theorem C8_witness :
    getProperty (.securityPanel ⟨"alarm_control_panel", "armed_custom_bypass",
        fun _ => none⟩) "armState" = .ok (some (.str "ARMED_STAY")) :=
  (C8_security_panel _).2.1 rfl

/-- C10: with the `current_position` attribute absent, the
range-controller cover-position branch reports an absent value (and the
state report omits the fragment), while the percentage capability on a
cover defaults the same missing attribute to 0. -/
theorem C10_cover_position_absent (e : Entity) (nc : Bool) (t : String)
    (h : e.attributes "current_position" = none) :
    getProperty (.range e "cover.position" nc) "rangeValue" = .ok none
    ∧ serializeProperties (.range e "cover.position" nc) t = .ok []
    ∧ (e.domain = "cover" →
        getProperty (.percentage e) "percentage" = .ok (some (.num 0))) := by
  have h1 : getProperty (.range e "cover.position" nc) "rangeValue" = .ok none := by
    rw [show getProperty (.range e "cover.position" nc) "rangeValue"
        = .ok ((e.attributes "current_position").map attrToJVal) from rfl, h]
    rfl
  refine ⟨h1, ?_, ?_⟩
  · simp [serializeProperties, supportedNames, serializePropsAux, h1]
  · intro hd
    simp [getProperty, hd, h, attrToJVal]

/-- C10 witness: a concrete cover with no `current_position`. -/
theorem C10_witness :
    getProperty (.range ⟨"cover", "open", fun _ => none⟩ "cover.position" false) "rangeValue"
      = .ok none
    ∧ getProperty (.percentage ⟨"cover", "open", fun _ => none⟩) "percentage"
      = .ok (some (.num 0)) := by
  have h := C10_cover_position_absent ⟨"cover", "open", fun _ => none⟩ false "T0" rfl
  exact ⟨h.1, h.2.2 rfl⟩

/-- C2 counterexample: the RangeController input-number branch converts
the entity state with a bare `float(...)`; on a non-numeric state the
conversion error propagates out of `get_property` instead of degrading to
an absent value. -/
theorem C2_counterexample :
    getProperty (.range ⟨"input_number", "abc", fun _ => none⟩ "input_number.value" false)
        "rangeValue" = .error .valueError
    ∧ (Except.error GetErr.valueError : Except GetErr (Option JVal)) ≠ .ok none := by
  refine ⟨rfl, ?_⟩
  intro h
  exact Except.noConfusion h

/-- C2 amended: parse-failure tolerance (log and return an absent value)
holds exactly where the source wraps the conversion in `try/except
ValueError` — the temperature sensor and the thermostat setpoints.  The
RangeController input-number branch and the EventDetectionSensor
image-processing branch convert with no handler, so a malformed state
value raises `ValueError` out of `get_property`. -/
theorem C2_amended :
    (∀ (u : String) (e : Entity), e.domain ≠ "climate" →
      e.state ≠ "unavailable" → e.state ≠ "unknown" → parseFloat? e.state = none →
      getProperty (.temperatureSensor u e) "temperature" = .ok none)
    ∧ (∀ (u : String) (e : Entity) (s : String), e.state ≠ "unavailable" →
      e.attributes "temperature" = some (.str s) → parseFloat? s = none →
      getProperty (.thermostat u e) "targetSetpoint" = .ok none)
    ∧ (∀ (e : Entity) (nc : Bool), parseFloat? e.state = none →
      getProperty (.range e "input_number.value" nc) "rangeValue" = .error .valueError)
    ∧ (∀ e : Entity, e.domain = "image_processing" →
      e.state ≠ "unavailable" → e.state ≠ "unknown" → parseInt? e.state = none →
      getProperty (.eventDetectionSensor e) "humanPresenceDetectionState"
        = .error .valueError) := by
  refine ⟨?_, ?_, ?_, ?_⟩
  · intro u e hd h1 h2 hp
    simp [getProperty, hd, h1, h2, hp, pyFloatVal]
  · intro u e s hs ha hp
    simp [getProperty, hs, ha, hp, pyFloatVal]
  · intro e nc hp
    rw [show getProperty (.range e "input_number.value" nc) "rangeValue"
        = (match parseFloat? e.state with
           | some q => Except.ok (some (JVal.num q))
           | none => Except.error GetErr.valueError) from rfl, hp]
  · intro e hd h1 h2 hp
    simp [getProperty, hd, h1, h2, hp]

/-- C2 amended witness: concrete malformed states for each branch. -/
theorem C2_amended_witness :
    getProperty (.temperatureSensor "°C" ⟨"sensor", "abc",
        fun k => if k = "unit_of_measurement" then some (.str "°C") else none⟩) "temperature"
      = .ok none
    ∧ getProperty (.thermostat "°C" ⟨"climate", "heat",
        fun k => if k = "temperature" then some (.str "abc") else none⟩) "targetSetpoint"
      = .ok none
    ∧ getProperty (.range ⟨"input_number", "abc", fun _ => none⟩ "input_number.value" false)
        "rangeValue" = .error .valueError
    ∧ getProperty (.eventDetectionSensor ⟨"image_processing", "abc", fun _ => none⟩)
        "humanPresenceDetectionState" = .error .valueError := by
  refine ⟨?_, ?_, ?_, ?_⟩
  · exact C2_amended.1 "°C" _ (by decide) (by decide) (by decide) (by decide)
  · exact C2_amended.2.1 "°C" _ "abc" (by decide) (by decide) (by decide)
  · exact C2_amended.2.2.1 _ false (by decide)
  · exact C2_amended.2.2.2 _ (by decide) (by decide) (by decide) (by decide)

/-- C5: with the entity available, `thermostatMode` prefers the preset
table's mapping of an active preset; otherwise it maps the raw state
through the mode table; an unmapped state signals the unsupported-property
condition. -/
theorem C5_thermostat_mode (u : String) (e : Entity) (hs : e.state ≠ "unavailable") :
    (∀ m, presetOf e = some m →
      getProperty (.thermostat u e) "thermostatMode" = .ok (some (.str m)))
    ∧ (presetOf e = none → ∀ m, apiThermostatModes e.state = some m →
      getProperty (.thermostat u e) "thermostatMode" = .ok (some (.str m)))
    ∧ (presetOf e = none → apiThermostatModes e.state = none →
      getProperty (.thermostat u e) "thermostatMode"
        = .error (.unsupportedProperty "thermostatMode")) := by
  refine ⟨?_, ?_, ?_⟩
  · intro m hm
    simp [getProperty, hs, hm]
  · intro hp m hm
    simp [getProperty, hs, hp, hm]
  · intro hp hm
    simp [getProperty, hs, hp, hm]

/-- C5 witness: an eco preset wins over the raw state. -/
theorem C5_witness :
    getProperty (.thermostat "°C" ⟨"climate", "heat",
        fun k => if k = "preset_mode" then some (.str "eco") else none⟩) "thermostatMode"
      = .ok (some (.str "ECO")) :=
  (C5_thermostat_mode "°C" _ (by decide)).1 "ECO" (by decide)

/-- C6: with HVAC modes `{heat, cool, off}` and no presets, the
thermostat configuration advertises exactly the mapped equivalents of
heat and cool (off has no table entry) after the constant
`supportsScheduling: false`; and every successful configuration starts
with `supportsScheduling: false`. -/
theorem C6_thermostat_configuration :
    (∀ e : Entity,
      e.attributes "hvac_modes" = some (.strList ["heat", "cool", "off"]) →
      e.attributes "preset_modes" = none →
      thermostatConfiguration e = .ok (.obj [("supportsScheduling", .bool false),
        ("supportedModes", .arr [.str "HEAT", .str "COOL"])]))
    ∧ (∀ (e : Entity) (r : JVal), thermostatConfiguration e = .ok r →
      ∃ rest, r = .obj (("supportsScheduling", JVal.bool false) :: rest)) := by
  constructor
  · intro e h1 h2
    simp only [thermostatConfiguration]
    rw [h1, h2]
    rfl
  · intro e r h
    simp only [thermostatConfiguration] at h
    split at h
    · injection h with h
      exact ⟨_, h.symm⟩
    · exact Except.noConfusion h

/-- C6 witness: a concrete thermostat entity. -/
theorem C6_witness :
    thermostatConfiguration ⟨"climate", "heat",
        fun k => if k = "hvac_modes" then some (.strList ["heat", "cool", "off"]) else none⟩
      = .ok (.obj [("supportsScheduling", .bool false),
        ("supportedModes", .arr [.str "HEAT", .str "COOL"])]) :=
  C6_thermostat_configuration.1 _ (by decide) (by decide)

/-- C1 counterexample: on an unavailable entity the thermostat controller
returns an absent value for an undeclared property name instead of
signalling `UnsupportedProperty` (its state check precedes the name
check). -/
theorem C1_counterexample :
    "bogus" ∉ supportedNames (Capability.thermostat "°C"
        ⟨"climate", "unavailable", fun _ => none⟩)
    ∧ getProperty (Capability.thermostat "°C" ⟨"climate", "unavailable", fun _ => none⟩)
        "bogus" = .ok none :=
  ⟨by decide, rfl⟩

/-- The mixed-value `float(...)` conversion either yields a number or
raises one of the two built-in conversion errors; it never produces the
typed unsupported-property condition. -/
theorem pyFloatVal_cases (t : AttrVal) :
    (∃ q, pyFloatVal t = .ok q)
    ∨ pyFloatVal t = .error .valueError
    ∨ pyFloatVal t = .error .typeError := by
  cases t with
  | str s =>
    cases hp : parseFloat? s with
    | none => exact Or.inr (Or.inl (by simp [pyFloatVal, hp]))
    | some q => exact Or.inl ⟨q, by simp [pyFloatVal, hp]⟩
  | num q => exact Or.inl ⟨q, rfl⟩
  | bool b => exact Or.inl ⟨if b then 1 else 0, rfl⟩
  | strList l => exact Or.inr (Or.inr rfl)
  | numPair a b => exact Or.inr (Or.inr rfl)

/-- C1 amended: every capability except the thermostat controller signals
`UnsupportedProperty` for any undeclared name, regardless of entity state.
The thermostat controller first checks the entity state: when the entity
is unavailable it returns an absent value for every name, declared or
not; when available it signals `UnsupportedProperty` for every name other
than `thermostatMode` and the three setpoint names, and reads the three
setpoint names even when they are undeclared — for them it never signals
`UnsupportedProperty` (for `thermostatMode` an unmapped state may still
signal it: the deliberate fault path of the mode branch). -/
theorem C1_amended (cap : Capability) (n : String) :
    (n ∉ supportedNames cap → isThermostat cap = false →
      getProperty cap n = .error (.unsupportedProperty n))
    ∧ (∀ u e, cap = Capability.thermostat u e → e.state = "unavailable" →
        getProperty cap n = .ok none)
    ∧ (∀ u e, cap = Capability.thermostat u e → e.state ≠ "unavailable" →
        n ∉ supportedNames cap →
        n ∉ ["targetSetpoint", "lowerSetpoint", "upperSetpoint"] →
        getProperty cap n = .error (.unsupportedProperty n))
    ∧ (∀ u e, cap = Capability.thermostat u e → e.state ≠ "unavailable" →
        n ∈ ["targetSetpoint", "lowerSetpoint", "upperSetpoint"] →
        getProperty cap n ≠ .error (.unsupportedProperty n)) := by
  refine ⟨?_, ?_, ?_, ?_⟩
  · intro hn ht
    cases cap <;>
      first
      | exact Bool.noConfusion ht
      | rfl
      | (simp only [supportedNames, List.mem_singleton] at hn
         simp [getProperty, hn])
  · intro u e hceq hst
    subst hceq
    simp [getProperty, hst]
  · intro u e hceq hst hn hns
    subst hceq
    have h1 : n ≠ "thermostatMode" := by
      intro hh
      subst hh
      exact hn (by simp [supportedNames])
    simp only [List.mem_cons, List.mem_singleton, not_or] at hns
    obtain ⟨h2, h3, h4⟩ := hns
    simp [getProperty, hst, h1, h2, h3, h4]
  · intro u e hceq hst hmem
    subst hceq
    simp only [List.mem_cons, List.not_mem_nil, or_false] at hmem
    rcases hmem with h | h | h
    · subst h
      cases hat : e.attributes "temperature" with
      | none => simp [getProperty, hst, hat]
      | some t =>
        rcases pyFloatVal_cases t with ⟨q, hq⟩ | hv | hv
        · cases hau : apiTempUnits (some u) with
          | some sc => simp [getProperty, hst, hat, hq, hau]
          | none => simp [getProperty, hst, hat, hq, hau]
        · simp [getProperty, hst, hat, hv]
        · simp [getProperty, hst, hat, hv]
    · subst h
      cases hat : e.attributes "target_temp_low" with
      | none => simp [getProperty, hst, hat]
      | some t =>
        rcases pyFloatVal_cases t with ⟨q, hq⟩ | hv | hv
        · cases hau : apiTempUnits (some u) with
          | some sc => simp [getProperty, hst, hat, hq, hau]
          | none => simp [getProperty, hst, hat, hq, hau]
        · simp [getProperty, hst, hat, hv]
        · simp [getProperty, hst, hat, hv]
    · subst h
      cases hat : e.attributes "target_temp_high" with
      | none => simp [getProperty, hst, hat]
      | some t =>
        rcases pyFloatVal_cases t with ⟨q, hq⟩ | hv | hv
        · cases hau : apiTempUnits (some u) with
          | some sc => simp [getProperty, hst, hat, hq, hau]
          | none => simp [getProperty, hst, hat, hq, hau]
        · simp [getProperty, hst, hat, hv]
        · simp [getProperty, hst, hat, hv]

/-- C1 amended witness: an undeclared name on a lock raises the
unsupported-property condition; an unavailable thermostat returns an
absent value even for a declared name; an available thermostat does not
signal the condition for an undeclared setpoint name (no feature bits, so
`targetSetpoint` is undeclared). -/
theorem C1_amended_witness :
    getProperty (Capability.lock ⟨"lock", "locked", fun _ => none⟩) "bogus"
      = .error (.unsupportedProperty "bogus")
    ∧ getProperty (Capability.thermostat "°C" ⟨"climate", "unavailable", fun _ => none⟩)
        "thermostatMode" = .ok none
    ∧ getProperty (Capability.thermostat "°C" ⟨"climate", "heat", fun _ => none⟩)
        "targetSetpoint" ≠ .error (.unsupportedProperty "targetSetpoint") := by
  refine ⟨?_, ?_, ?_⟩
  · exact (C1_amended (Capability.lock ⟨"lock", "locked", fun _ => none⟩) "bogus").1
      (by decide) rfl
  · exact (C1_amended _ "thermostatMode").2.1 "°C" _ rfl rfl
  · exact (C1_amended _ "targetSetpoint").2.2.2 "°C" _ rfl (by decide) (by decide)

/-- Inverts the empty-hook test: an empty hook is a returned value that is
falsy. -/
theorem hookEmpty_elim (x : Except Unit JVal) (hx : hookEmptyB x = true) :
    ∃ v, x = .ok v ∧ jTruthy v = false := by
  cases x with
  | error e => simp [hookEmptyB] at hx
  | ok v => exact ⟨v, rfl, by simpa [hookEmptyB] using hx⟩

/-- C3: when every optional hook returns its empty / absent default, the
discovery document contains exactly `type`, `interface = name()`,
`version = "3"`, plus `instance` when the instance field is set, and
nothing else. -/
theorem C3_discovery_minimal (h : Hooks)
    (h1 : h.propertiesSupported = [])
    (h2 : h.capabilityProactivelyReported = none)
    (h3 : h.propertiesNonControllable = none)
    (h4 : h.supportsDeactivation = none)
    (h5 : hookEmptyB h.capabilityResources = true)
    (h6 : hookEmptyB h.configuration = true)
    (h7 : hookEmptyB h.semantics = true)
    (h8 : hookEmptyB h.supportedOperations = true)
    (h9 : hookEmptyB h.inputs = true) :
    serializeDiscovery h
      = .ok ([("type", JVal.str "AlexaInterface"), ("interface", JVal.str h.name),
              ("version", JVal.str "3")]
        ++ (match h.inst with | some i => [("instance", JVal.str i)] | none => [])) := by
  obtain ⟨vcr, hcr, hvcr⟩ := hookEmpty_elim _ h5
  obtain ⟨vcf, hcf, hvcf⟩ := hookEmpty_elim _ h6
  obtain ⟨vsm, hsm, hvsm⟩ := hookEmpty_elim _ h7
  obtain ⟨vso, hso, hvso⟩ := hookEmpty_elim _ h8
  obtain ⟨vin, hin, hvin⟩ := hookEmpty_elim _ h9
  simp [serializeDiscovery, h1, h2, h3, h4, hcr, hcf, hsm, hso, hin, appIf,
    hvcr, hvcf, hvsm, hvso, hvin]

/-- C3 witness: the plain `Alexa` capability, whose hooks are all
defaults. -/
theorem C3_witness :
    serializeDiscovery (hooks (Capability.alexa ⟨"light", "on", fun _ => none⟩))
      = .ok [("type", JVal.str "AlexaInterface"), ("interface", JVal.str "Alexa"),
             ("version", JVal.str "3")] := by
  have h := C3_discovery_minimal (hooks (Capability.alexa ⟨"light", "on", fun _ => none⟩))
    rfl rfl rfl rfl rfl rfl rfl rfl rfl
  exact h.trans rfl

/-- When every declared name's `get_property` returns (rather than
raises), the property walk collects exactly the fragments of the present
values, in declaration order. -/
theorem serializePropsAux_ok (cap : Capability) (now : String) :
    ∀ l : List String, (∀ n ∈ l, exOk (getProperty cap n) = true) →
      serializePropsAux cap now l = .ok (l.filterMap (fun n =>
        match getProperty cap n with
        | .ok (some v) => some (mkFragment (capName cap) (capInstance cap) now n v)
        | _ => none)) := by
  intro l
  induction l with
  | nil => intro _; rfl
  | cons n rest ih =>
    intro hall
    have hn := hall n (by simp)
    have ihr := ih (fun m hm => hall m (by simp [hm]))
    cases hg : getProperty cap n with
    | error er => rw [hg] at hn; simp [exOk] at hn
    | ok ov =>
      cases ov with
      | none => simp [serializePropsAux, hg, ihr]
      | some v => simp [serializePropsAux, hg, ihr]

/-- C4: `serialize_properties` walks exactly the declared property names;
a `None` value yields no fragment and raises nothing, and each present
value yields a fragment with exactly `name`, `namespace = name()`,
`value`, `timeOfSample`, `uncertaintyInMilliseconds = 0`, and `instance`
when the instance field is set. -/
theorem C4_serialize_properties (cap : Capability) (now : String)
    (hall : ∀ n ∈ supportedNames cap, exOk (getProperty cap n) = true) :
    serializeProperties cap now = .ok ((supportedNames cap).filterMap (fun n =>
      match getProperty cap n with
      | .ok (some v) => some (JVal.obj ([("name", JVal.str n),
          ("namespace", JVal.str (capName cap)), ("value", v),
          ("timeOfSample", JVal.str now), ("uncertaintyInMilliseconds", JVal.num 0)]
        ++ (match capInstance cap with
            | some i => [("instance", JVal.str i)]
            | none => [])))
      | _ => none)) :=
  serializePropsAux_ok cap now (supportedNames cap) hall

/-- C4 witness: a locked lock reports one full fragment. -/
theorem C4_witness :
    serializeProperties (Capability.lock ⟨"lock", "locked", fun _ => none⟩) "T0"
      = .ok [JVal.obj [("name", .str "lockState"),
          ("namespace", .str "Alexa.LockController"), ("value", .str "LOCKED"),
          ("timeOfSample", .str "T0"), ("uncertaintyInMilliseconds", .num 0)]] := by
  have h := C4_serialize_properties (Capability.lock ⟨"lock", "locked", fun _ => none⟩)
    "T0" (by decide)
  exact h.trans rfl

/-- Inserting `nonControllable` cannot raise when either no insertion
happens or the `properties` key was added (non-empty supported list). -/
theorem discNoKeyError (h : Hooks)
    (hc : h.propertiesNonControllable = none ∨ h.propertiesSupported ≠ []) :
    serializeDiscovery h ≠ .error .keyError := by
  rcases hpn : h.propertiesNonControllable with _ | b
  · rcases hcr : h.capabilityResources with er | vcr <;>
    rcases hcf : h.configuration with er2 | vcf <;>
    rcases hsm : h.semantics with er3 | vsm <;>
    rcases hso : h.supportedOperations with er4 | vso <;>
    rcases hin : h.inputs with er5 | vin <;>
      simp [serializeDiscovery, hpn, hcr, hcf, hsm, hso, hin]
  · have hne : h.propertiesSupported ≠ [] := by
      rcases hc with hx | hx
      · rw [hpn] at hx
        exact absurd hx (by simp)
      · exact hx
    rcases hps : h.propertiesSupported with _ | ⟨p0, ps⟩
    · exact absurd hps hne
    rcases hcp : h.capabilityProactivelyReported with _ | pb <;>
    rcases hcr : h.capabilityResources with er | vcr <;>
    rcases hcf : h.configuration with er2 | vcf <;>
    rcases hsm : h.semantics with er3 | vsm <;>
    rcases hso : h.supportedOperations with er4 | vso <;>
    rcases hin : h.inputs with er5 | vin <;>
      simp [serializeDiscovery, hpn, hps, hcp, hcr, hcf, hsm, hso, hin,
        setNonControllable, List.any_append, appIf]

/-- C9: for every capability variant, a non-`None` `nonControllable` flag
comes with a non-empty supported-properties list (only the Mode / Range /
Toggle controllers set the flag, and each declares one property), so the
nested `nonControllable` insertion of `serialize_discovery` never hits a
missing `properties` key. -/
theorem C9_non_controllable_safety (cap : Capability) :
    ((hooks cap).propertiesNonControllable.isSome = true →
      (hooks cap).propertiesSupported ≠ [])
    ∧ serializeDiscovery (hooks cap) ≠ .error .keyError := by
  constructor
  · cases cap <;> simp [hooks, mkHooks, supportedNames]
  · cases cap <;>
      first
      | exact discNoKeyError _ (Or.inl rfl)
      | exact discNoKeyError _ (Or.inr (by simp [hooks, mkHooks, supportedNames]))

/-- C9 witness: a non-controllable mode controller still declares its one
supported property. -/
theorem C9_witness :
    (hooks (Capability.mode ⟨"fan", "on", fun _ => none⟩ "fan.direction" true)).propertiesSupported
      ≠ [] :=
  (C9_non_controllable_safety _).1 rfl
